import Mathlib

/-!
Verification development for the git-to-json diff-extraction and
prompt-assembly core (src/core.py, src/services/prompt_builder.py,
src/utils.py, src/schemas.py).

The Python code is shallowly embedded: pure functions become Lean
functions, the external collaborators (GitPython diff indices and commit
walks, the tiktoken encoders, the filesystem) become explicit inputs,
and a Python exception that the code lets escape becomes an
Option/Except failure value.
-/

namespace GitToJson

/-! ### Python string primitives

Executable models of the Python string operations the code uses.
Lean core string functions such as String.replace are not used because
they do not reduce in the kernel; these char-list versions do. -/

/-- Model of Python f-string interpolation of a value that may be None:
interpolating None yields the four-character text "None". -/
def pyFormat : Option String → String
  | none => "None"
  | some s => s

/-- Model of the Python idiom `value or default` on an optional string:
None and the empty string are falsy and select the default. -/
def pyOrStr (v : Option String) (default : String) : String :=
  match v with
  | none => default
  | some s => if s = "" then default else s

/-- Characters stripped by Python str.strip() with no argument.
Only the four common whitespace characters are modelled. -/
def pyIsSpace (c : Char) : Bool :=
  c = ' ' || c = '\t' || c = '\n' || c = '\r'

/-- Model of Python str.strip(): drop whitespace from both ends. -/
def pyStrip (s : String) : String :=
  ⟨((s.data.dropWhile pyIsSpace).reverse.dropWhile pyIsSpace).reverse⟩

/-- One step list of Python str.replace on char lists, fuel-bounded so the
kernel can evaluate it. The fuel is consumed once per examined position;
a fuel of the length of the subject list is sufficient for every
non-empty pattern. Replacement is leftmost and non-overlapping, as in
Python. -/
def pyReplaceChars (pat repl : List Char) : Nat → List Char → List Char
  | _, [] => []
  | 0, s => s
  | fuel + 1, c :: cs =>
    if pat ≠ [] ∧ pat.isPrefixOf (c :: cs) then
      repl ++ pyReplaceChars pat repl fuel ((c :: cs).drop pat.length)
    else
      c :: pyReplaceChars pat repl fuel cs

/-- Model of Python str.replace(pat, repl): replace every non-overlapping
occurrence of pat, scanning left to right. -/
def pyReplace (s pat repl : String) : String :=
  ⟨pyReplaceChars pat.data repl.data s.data.length s.data⟩

/-- Prefix of a char list up to the first line-break character.
Only the two common line boundaries LF and CR are modelled. -/
def takeUntilLineBreak : List Char → List Char
  | [] => []
  | c :: cs => if c = '\n' || c = '\r' then [] else c :: takeUntilLineBreak cs

/-- Model of the Python expression s.splitlines()[0]: the first line of s,
or a raised IndexError (None) when s is empty, because
"".splitlines() is the empty list. -/
def pySplitlinesHead (s : String) : Option String :=
  if s.data = [] then none else some ⟨takeUntilLineBreak s.data⟩

/-! ### Data model (src/schemas.py) -/

/-- Embedding of schemas.CommitData. The datetime field is carried as an
opaque string (its ISO-8601 serialization); no claim inspects its
structure. -/
structure CommitData where
  hash : String
  short_hash : String
  author : String
  date : String
  message : String
  diff : String
deriving DecidableEq, Repr

/-- Embedding of schemas.TemplatePrompts: optional system text and a
user text containing the DIFF_CONTENT placeholder. -/
structure TemplatePrompts where
  system : Option String
  user : String
deriving DecidableEq, Repr

/-- Embedding of schemas.PromptTemplate restricted to the field the
prompt builder reads (prompts); meta and execution are orchestration. -/
structure PromptTemplate where
  prompts : TemplatePrompts
deriving DecidableEq, Repr

/-! ### DiffExtractor (src/core.py)

A GitPython DiffIndex is modelled as a list of file-level diff items.
The flags and contents of the items are produced by the external
version-control capability; decoding with errors="replace" never fails,
so decoded text is carried directly. A blob is modelled as the list of
decoded lines of its data stream, or none when the blob reference is
absent (Python falsy blob). -/

/-- One entry of a GitPython DiffIndex, as consumed by
DiffExtractor._process_diff_index. -/
structure DiffItem where
  new_file : Bool
  deleted_file : Bool
  a_path : Option String
  b_path : Option String
  a_blob : Option (List String)
  b_blob : Option (List String)
  diff : String
deriving DecidableEq, Repr

/-- Embedding of the nested helper _stream_blob_content in core.py:
a falsy blob yields the given empty message, otherwise the decoded
lines of the data stream are joined. -/
def streamBlobContent (blob : Option (List String)) (emptyMessage : String) : String :=
  match blob with
  | none => emptyMessage
  | some lines => String.join lines

/-- The label line chosen for one diff item by the if-chain of
_process_diff_index (the local variable named after the label in the
source): new-file, else deleted-file, else plain file. -/
def diffItemLabel (d : DiffItem) : String :=
  if d.new_file then
    "--- NEW FILE: " ++ pyFormat d.b_path ++ " ---\n"
  else if d.deleted_file then
    "--- DELETED FILE: " ++ pyFormat d.a_path ++ " ---\n"
  else
    "--- FILE: " ++ pyFormat d.a_path ++ " ---\n"

/-- The body text chosen for one diff item by the same if-chain:
streamed blob content for new and deleted files, the decoded patch for
modified files. -/
def diffItemText (d : DiffItem) : String :=
  if d.new_file then
    streamBlobContent d.b_blob "(File is binary or empty)"
  else if d.deleted_file then
    streamBlobContent d.a_blob "(File was binary or empty)"
  else
    d.diff

/-- The block appended to the diffs list for one item:
the label followed by the body. -/
def renderDiffItem (d : DiffItem) : String :=
  diffItemLabel d ++ diffItemText d

/-- Embedding of DiffExtractor._process_diff_index: render every item and
join with newlines; an empty change set yields the sentinel string.
The per-item except branches of the source handle external I/O
failures that the pure item model cannot produce. -/
def processDiffIndex (diffIndex : List DiffItem) : String :=
  let diffs := diffIndex.map renderDiffItem
  if diffs ≠ [] then String.intercalate "\n" diffs else "No changes detected."

/-- A GitPython commit as consumed by extract_diff and the fetchers.
The two diff indices are the values returned by the external diff
capability for the two calls the source can make:
emptyTreeDiffIndex for tree.diff(NULL_TREE, create_patch=True) and
parentDiffIndex for parents[0].diff(commit, create_patch=True). -/
structure Commit where
  hexsha : String
  author_name : Option String
  committed_date : String
  message : String
  parents : List String
  emptyTreeDiffIndex : List DiffItem
  parentDiffIndex : List DiffItem
deriving DecidableEq, Repr

/-- A GitPython repository handle as consumed by extract_diff in staged
mode: stagedDiffIndex is the value returned by
index.diff(head.commit, create_patch=True, R=True). -/
structure Repo where
  stagedDiffIndex : List DiffItem
deriving DecidableEq, Repr

/-- Embedding of DiffExtractor.extract_diff for diff_type "commit":
a commit without parents is diffed against the empty tree, otherwise
against its first parent. The try/except wrapper of the source converts
external whole-comparison failures to an error string; the pure model
has no such failures. -/
def extract_diff_commit (c : Commit) : String :=
  if c.parents = [] then processDiffIndex c.emptyTreeDiffIndex
  else processDiffIndex c.parentDiffIndex

/-- Embedding of DiffExtractor.extract_diff for diff_type "staged":
the index is diffed against HEAD with direction reversed. -/
def extract_diff_staged (r : Repo) : String :=
  processDiffIndex r.stagedDiffIndex

/-! ### Fetchers (src/core.py) -/

/-- Embedding of core._fetch_staged_data: extract the staged diff and
produce the sentinel staged record unless the diff is falsy or equals
the no-changes sentinel. The wall-clock timestamp datetime.now() is an
explicit input. -/
def fetch_staged_data (r : Repo) (now : String) : List CommitData :=
  let staged_diff := extract_diff_staged r
  if staged_diff = "" ∨ staged_diff = "No changes detected." then []
  else
    [{ hash := "STAGED_CHANGES"
       short_hash := "STAGED"
       author := "Current User"
       date := now
       message := "PRE-COMMIT: Staged changes ready for analysis."
       diff := staged_diff }]

/-- Conversion of a GitPython commit to a CommitData record, as written
out identically inside _fetch_history_data_by_hashes and
_fetch_history_data: short hash is the first seven characters of the
hexsha, a falsy author name falls back to "Unknown Author", the message
is stripped, and the diff is extracted in commit mode. The
datetime.fromtimestamp conversion is carried opaquely. -/
def commitToCommitData (c : Commit) : CommitData :=
  { hash := c.hexsha
    short_hash := ⟨c.hexsha.data.take 7⟩
    author := pyOrStr c.author_name "Unknown Author"
    date := c.committed_date
    message := pyStrip c.message
    diff := extract_diff_commit c }

/-- Embedding of core._fetch_history_data_by_hashes. The external lookup
repo.commit(hash) is the resolve input; none models the lookup raising,
in which case the except branch logs and the hash is skipped. -/
def fetch_history_data_by_hashes
    (resolve : String → Option Commit) : List String → List CommitData
  | [] => []
  | h :: rest =>
    match resolve h with
    | some c => commitToCommitData c :: fetch_history_data_by_hashes resolve rest
    | none => fetch_history_data_by_hashes resolve rest

/-- Embedding of repo.iter_commits as invoked by _fetch_history_data:
the external walk (already restricted by the since/until/author
criteria) is the repoWalk input, and a truthy limit filter sets
max_count, truncating the walk to its first limit entries. A limit of
none or zero is falsy in Python and leaves the walk unbounded. -/
def iter_commits (repoWalk : List Commit) (limit : Option Nat) : List Commit :=
  match limit with
  | some n => if n ≠ 0 then repoWalk.take n else repoWalk
  | none => repoWalk

/-- The accumulation loop of _fetch_history_data: append commits in
order, but once 1000 records have been collected and another commit
arrives, log a warning (the Boolean component) and stop. -/
def fetchHistoryLoop : List Commit → List CommitData → List CommitData × Bool
  | [], acc => (acc, false)
  | c :: rest, acc =>
    if acc.length ≥ 1000 then (acc, true)
    else fetchHistoryLoop rest (acc ++ [commitToCommitData c])

/-- Embedding of core._fetch_history_data: iterate the filtered walk
with the optional max count and accumulate under the 1000-record safety
cap. The Boolean reports whether the cap warning was logged. -/
def fetch_history_data (repoWalk : List Commit) (limit : Option Nat) :
    List CommitData × Bool :=
  fetchHistoryLoop (iter_commits repoWalk limit) []

/-! ### PromptAssembler (src/services/prompt_builder.py) -/

/-- The labeled chunk built for one commit inside the loop of
build_prompt; none models the IndexError that
commit.message.splitlines()[0] raises on an empty message. -/
def commitChunk (c : CommitData) : Option String :=
  (pySplitlinesHead c.message).map (fun firstLine =>
    "--- Diff for " ++ c.short_hash ++ ": " ++ firstLine ++ " ---\n" ++ c.diff)

/-- The for-loop of build_prompt: walk the commits in order, accumulate
accepted chunks and the running token count, and when a chunk would
push the total past the budget record how many commits were not
accepted (the length of the whole input minus the accepted chunks) and
stop. The loop completing normally leaves the omitted count at zero.
The token counter ct is the external count_tokens capability, and none
models a propagated IndexError. -/
def buildPromptLoop (ct : String → Nat) (max_tokens : Nat) (total : Nat) :
    List CommitData → Nat → List String → Option (List String × Nat)
  | [], _, chunks => some (chunks, 0)
  | c :: rest, current_tokens, chunks =>
    match commitChunk c with
    | none => none
    | some commit_chunk =>
      let commit_tokens := ct commit_chunk
      if current_tokens + commit_tokens > max_tokens then
        some (chunks, total - chunks.length)
      else
        buildPromptLoop ct max_tokens total rest
          (current_tokens + commit_tokens) (chunks ++ [commit_chunk])

/-- Embedding of prompt_builder.build_prompt. Empty input yields the
empty string; otherwise the boilerplate cost seeds the running count,
the loop selects a budget-bounded window of labeled chunks, an omission
info line is appended when commits were dropped, and the placeholder in
the user text is replaced with the accumulated diff to form the
two-section payload. none models a propagated IndexError; the console
size report is a side effect outside the model. -/
def build_prompt (ct : String → Nat) (template : PromptTemplate)
    (data : List CommitData) (max_tokens : Nat := 120000) : Option String :=
  if data = [] then some ""
  else
    let base_prompt := "--- SYSTEM PROMPT ---\n" ++ pyFormat template.prompts.system ++
      "\n\n--- USER PROMPT ---\n" ++ template.prompts.user
    let current_tokens := ct (pyReplace base_prompt "{DIFF_CONTENT}" "")
    match buildPromptLoop ct max_tokens data.length data current_tokens [] with
    | none => none
    | some (chunks, omitted_commits) =>
      let raw_diff := String.intercalate "\n\n" chunks
      let raw_diff :=
        if omitted_commits > 0 then
          let truncation_message := "\n\n[INFO: " ++ toString omitted_commits ++
            " commits were omitted to fit within the token limit.]"
          raw_diff ++ truncation_message
        else raw_diff
      let final_user_prompt := pyReplace template.prompts.user "{DIFF_CONTENT}" raw_diff
      some ("--- SYSTEM PROMPT ---\n" ++ pyFormat template.prompts.system ++
        "\n\n--- USER PROMPT ---\n" ++ final_user_prompt)

/-! ### Token counting (src/utils.py) -/

/-- Embedding of utils.count_tokens. The external tiktoken capability is
passed explicitly: encodingForModel stands for a successful
tiktoken.encoding_for_model lookup together with its encode call, and
getEncoding for tiktoken.get_encoding "cl100k_base" with its encode
call; none models the corresponding call raising. The try block covers
only the first attempt, so a failure of the generic encoding in the
except branch escapes as an exception, modelled by the error value. -/
def count_tokens (encodingForModel getEncoding : Option (String → Nat))
    (text : String) : Except String Nat :=
  match encodingForModel with
  | some encode => Except.ok (encode text)
  | none =>
    match getEncoding with
    | some encode => Except.ok (encode text)
    | none => Except.error "tiktoken fallback encoding unavailable"

/-- Token counting as the spec describes it, stated from the words of
the spec for comparison with count_tokens: model tokenizer first, then
the generic encoding, then the character-count heuristic of the length
divided by 4, never failing. -/
def count_tokens_claimed (encodingForModel getEncoding : Option (String → Nat))
    (text : String) : Nat :=
  match encodingForModel with
  | some encode => encode text
  | none =>
    match getEncoding with
    | some encode => encode text
    | none => text.length / 4

/-! ### StreamingPersistence (src/utils.py) -/

/-- A JSON document, as produced by the json module for the data this
program writes: strings, arrays and objects cover every value
save_data_to_file can emit. -/
inductive Json where
  | str : String → Json
  | arr : List Json → Json
  | obj : List (String × Json) → Json

/-- Field access on a parsed JSON object. -/
def Json.getField : Json → String → Option Json
  | Json.obj fields, key => fields.lookup key
  | _, _ => none

/-- The model_dump(mode="json") dictionary of one CommitData record, in
the field order of the schema; the datetime field serializes to its
ISO-8601 string, carried opaquely. -/
def commitDataToJson (c : CommitData) : Json :=
  Json.obj [("hash", Json.str c.hash), ("short_hash", Json.str c.short_hash),
    ("author", Json.str c.author), ("date", Json.str c.date),
    ("message", Json.str c.message), ("diff", Json.str c.diff)]

/-- Embedding of utils.save_data_to_file: the JSON document json.dump
writes to the destination file, one object per record in list order.
Parsing the file back with json.load yields this same document, since
dump and load round-trip exactly on structured string data. Directory
creation and the I/O failure paths that return False are filesystem
effects outside the pure model. -/
def save_data_to_file (data : List CommitData) : Json :=
  Json.arr (data.map commitDataToJson)

/-! ### Concrete fixtures used by witnesses

The template and single commit mirror the fixtures of the repository
test suite for the prompt builder. -/

def demoTemplate : PromptTemplate :=
  { prompts := { system := some "System instruction."
                 user := "Analyze these changes: {DIFF_CONTENT}" } }

def demoTemplateNoSystem : PromptTemplate :=
  { prompts := { system := none
                 user := "Analyze these changes: {DIFF_CONTENT}" } }

def demoSingleCommit : CommitData :=
  { hash := "abc1234deadbeef"
    short_hash := "abc1234"
    author := "Test Author"
    date := "2024-01-01T00:00:00"
    message := "feat: single commit"
    diff := "single_diff_content" }

def demoChunk : String :=
  "--- Diff for abc1234: feat: single commit ---\nsingle_diff_content"

def demoNewItem : DiffItem :=
  { new_file := true
    deleted_file := false
    a_path := none
    b_path := some "hello.py"
    a_blob := none
    b_blob := some ["print(1)\n"]
    diff := "" }

def demoRootCommit : Commit :=
  { hexsha := "1111111deadbeef"
    author_name := some "Test Author"
    committed_date := "2024-01-01T00:00:00"
    message := "initial commit"
    parents := []
    emptyTreeDiffIndex := [demoNewItem]
    parentDiffIndex := [] }

def demoResolvedCommit : Commit :=
  { hexsha := "2222222deadbeef"
    author_name := some "Test Author"
    committed_date := "2024-01-02T00:00:00"
    message := "second commit"
    parents := ["1111111deadbeef"]
    emptyTreeDiffIndex := []
    parentDiffIndex := [demoNewItem] }

def demoResolve : String → Option Commit :=
  fun h => if h = "badhash" then none else some demoResolvedCommit

def demoHashes : List String :=
  ["1111111deadbeef", "badhash", "2222222deadbeef"]

def demoRepo : Repo :=
  { stagedDiffIndex := [] }

/-! ### Claims -/

/-- C7: a change set with zero entries makes DiffExtractor return exactly
the literal sentinel string "No changes detected.", which is not the
empty string. -/
theorem processDiffIndex_empty_sentinel :
    processDiffIndex [] = "No changes detected." ∧
      processDiffIndex [] ≠ "" := by
  constructor
  · rfl
  · decide

/-- C6: a staged-mode fetch yields zero or one record, and the sentinel
staged record (hash STAGED_CHANGES, short hash STAGED) is present
exactly when the extracted staged diff is neither empty nor the
no-changes sentinel; staging nothing yields the empty list. -/
theorem fetch_staged_data_zero_or_one (r : Repo) (now : String) :
    (fetch_staged_data r now).length ≤ 1 ∧
      ((∃ rec, fetch_staged_data r now = [rec] ∧
          rec.hash = "STAGED_CHANGES" ∧ rec.short_hash = "STAGED") ↔
        (extract_diff_staged r ≠ "" ∧
          extract_diff_staged r ≠ "No changes detected.")) := by
  unfold fetch_staged_data
  by_cases h : extract_diff_staged r = "" ∨ extract_diff_staged r = "No changes detected."
  · simp only [h, if_pos]
    constructor
    · simp
    · constructor
      · rintro ⟨rec, hrec, -⟩
        simp at hrec
      · rintro ⟨h1, h2⟩
        rcases h with h | h
        · exact absurd h h1
        · exact absurd h h2
  · simp only [h, if_neg, if_false]
    push_neg at h
    constructor
    · simp
    · constructor
      · intro _
        exact h
      · rintro ⟨-, -⟩
        exact ⟨_, rfl, rfl, rfl⟩

lemma string_append_ne_of_ne_at (a b : String) (i : Nat)
    (hia : i < a.data.length) (hib : i < b.data.length)
    (hne : a.data.get ⟨i, hia⟩ ≠ b.data.get ⟨i, hib⟩) (s t : String) :
    a ++ s ≠ b ++ t := by
  intro h
  have hdata : a.data ++ s.data = b.data ++ t.data := congrArg String.data h
  have hga : (a.data ++ s.data)[i]? = a.data[i]? := List.getElem?_append_left hia
  have hgb : (b.data ++ t.data)[i]? = b.data[i]? := List.getElem?_append_left hib
  rw [hdata, hgb] at hga
  rw [List.getElem?_eq_getElem hib, List.getElem?_eq_getElem hia] at hga
  exact hne (by simpa using hga.symm)

/-- C1: for a root commit (no parent), extract_diff in commit mode diffs
against the empty tree, and provided the external empty-tree diff flags
every entry as a new file (the diff-against-empty-baseline contract of
the version-control capability), every rendered block is a NEW FILE
addition block, never a DELETED FILE or modified FILE block. -/
theorem extract_diff_root_commit_all_additions (c : Commit)
    (hroot : c.parents = [])
    (hext : ∀ d ∈ c.emptyTreeDiffIndex, d.new_file = true) :
    extract_diff_commit c = processDiffIndex c.emptyTreeDiffIndex ∧
      ∀ d ∈ c.emptyTreeDiffIndex,
        diffItemLabel d = "--- NEW FILE: " ++ pyFormat d.b_path ++ " ---\n" ∧
          (∀ s, diffItemLabel d ≠ "--- DELETED FILE: " ++ s) ∧
          (∀ s, diffItemLabel d ≠ "--- FILE: " ++ s) := by
  constructor
  · unfold extract_diff_commit
    rw [if_pos hroot]
  · intro d hd
    have hnew : d.new_file = true := hext d hd
    have hlabel : diffItemLabel d = "--- NEW FILE: " ++ pyFormat d.b_path ++ " ---\n" := by
      unfold diffItemLabel
      rw [hnew]
      simp
    refine ⟨hlabel, ?_, ?_⟩
    · intro s
      rw [hlabel, String.append_assoc]
      exact string_append_ne_of_ne_at "--- NEW FILE: " "--- DELETED FILE: " 4
        (by decide) (by decide) (by decide) _ s
    · intro s
      rw [hlabel, String.append_assoc]
      exact string_append_ne_of_ne_at "--- NEW FILE: " "--- FILE: " 4
        (by decide) (by decide) (by decide) _ s

lemma fetchHistoryLoop_length_le (commits : List Commit)
    (acc : List CommitData) (h : acc.length ≤ 1000) :
    (fetchHistoryLoop commits acc).1.length ≤ 1000 := by
  induction commits generalizing acc with
  | nil => simpa [fetchHistoryLoop] using h
  | cons c rest ih =>
    unfold fetchHistoryLoop
    by_cases hlen : acc.length ≥ 1000
    · simpa [hlen] using h
    · have hlt : acc.length < 1000 := Nat.lt_of_not_le hlen
      simp only [hlen, if_false]
      exact ih (acc ++ [commitToCommitData c])
        (by simp only [List.length_append, List.length_singleton]; omega)

lemma fetchHistoryLoop_warn_iff (commits : List Commit)
    (acc : List CommitData) (h : acc.length ≤ 1000) :
    (fetchHistoryLoop commits acc).2 = true ↔
      1000 < commits.length + acc.length := by
  induction commits generalizing acc with
  | nil =>
    simp only [fetchHistoryLoop, List.length_nil, Nat.zero_add,
      Bool.false_eq_true, false_iff]
    omega
  | cons c rest ih =>
    unfold fetchHistoryLoop
    by_cases hlen : acc.length ≥ 1000
    · have heq : acc.length = 1000 := Nat.le_antisymm h hlen
      simp only [hlen, if_true, List.length_cons, true_iff]
      omega
    · have hlt : acc.length < 1000 := Nat.lt_of_not_le hlen
      simp only [hlen, if_false]
      rw [ih (acc ++ [commitToCommitData c])
        (by simp only [List.length_append, List.length_singleton]; omega)]
      simp only [List.length_append, List.length_cons, List.length_singleton,
        List.length_nil]
      omega

/-- C5: a history-mode fetch returns at most 1000 records no matter what
limit the caller requested, and the cap warning is logged exactly when
the walk produced by the requested filters holds more than 1000
commits, that is, exactly when the ceiling truncates the results. -/
theorem fetch_history_data_capped (repoWalk : List Commit) (limit : Option Nat) :
    (fetch_history_data repoWalk limit).1.length ≤ 1000 ∧
      ((fetch_history_data repoWalk limit).2 = true ↔
        1000 < (iter_commits repoWalk limit).length) := by
  constructor
  · exact fetchHistoryLoop_length_le _ [] (by simp)
  · have := fetchHistoryLoop_warn_iff (iter_commits repoWalk limit) [] (by simp)
    simpa [fetch_history_data] using this

lemma fetch_by_hashes_eq_filterMap (resolve : String → Option Commit)
    (hashes : List String) :
    fetch_history_data_by_hashes resolve hashes =
      hashes.filterMap (fun h => (resolve h).map commitToCommitData) := by
  induction hashes with
  | nil => rfl
  | cons h rest ih =>
    unfold fetch_history_data_by_hashes
    cases hres : resolve h with
    | none => simp [List.filterMap_cons, hres, ih]
    | some c => simp [List.filterMap_cons, hres, ih]

lemma fetch_by_hashes_length_add (resolve : String → Option Commit)
    (hashes : List String) :
    (fetch_history_data_by_hashes resolve hashes).length +
        (hashes.filter (fun x => (resolve x).isNone)).length =
      hashes.length := by
  induction hashes with
  | nil => rfl
  | cons h rest ih =>
    unfold fetch_history_data_by_hashes
    cases hres : resolve h with
    | none =>
      simp only [List.filter_cons, hres, Option.isNone_none, if_true,
        List.length_cons]
      omega
    | some c =>
      simp only [List.filter_cons, hres, Option.isNone_some, List.length_cons]
      simp only [Bool.false_eq_true, if_false]
      omega

lemma fetch_by_hashes_eq_surviving (resolve : String → Option Commit)
    (hashes : List String) :
    fetch_history_data_by_hashes resolve hashes =
      (hashes.filter (fun x => (resolve x).isSome)).filterMap
        (fun x => (resolve x).map commitToCommitData) := by
  rw [fetch_by_hashes_eq_filterMap]
  induction hashes with
  | nil => rfl
  | cons h rest ih =>
    cases hres : resolve h with
    | none => simp [List.filterMap_cons, List.filter_cons, hres, ih]
    | some c => simp [List.filterMap_cons, List.filter_cons, hres, ih]

/-- C8: a hashes-mode fetch over an ordered hash list of which exactly
one entry fails to resolve yields exactly one record fewer than the
input length, without raising, and the records are those of the
surviving hashes in their input order. -/
theorem fetch_by_hashes_skips_failures (resolve : String → Option Commit)
    (hashes : List String)
    (hone : (hashes.filter (fun x => (resolve x).isNone)).length = 1) :
    (fetch_history_data_by_hashes resolve hashes).length = hashes.length - 1 ∧
      fetch_history_data_by_hashes resolve hashes =
        (hashes.filter (fun x => (resolve x).isSome)).filterMap
          (fun x => (resolve x).map commitToCommitData) := by
  constructor
  · have := fetch_by_hashes_length_add resolve hashes
    omega
  · exact fetch_by_hashes_eq_surviving resolve hashes

/-- C4: when the token budget is smaller than the token cost of the
first chunk of a non-empty commit list, the selection loop accepts zero
commits and records an omission count equal to the whole input length,
and build_prompt returns the payload whose diff content is exactly the
info line reporting that len(data) commits were omitted. -/
theorem build_prompt_budget_below_first (ct : String → Nat)
    (template : PromptTemplate) (c : CommitData) (rest : List CommitData)
    (max_tokens : Nat) (chunk : String)
    (hchunk : commitChunk c = some chunk) (hbudget : max_tokens < ct chunk) :
    (∀ current_tokens : Nat,
      buildPromptLoop ct max_tokens (c :: rest).length (c :: rest)
          current_tokens [] = some ([], (c :: rest).length)) ∧
      build_prompt ct template (c :: rest) max_tokens =
        some ("--- SYSTEM PROMPT ---\n" ++ pyFormat template.prompts.system ++
          "\n\n--- USER PROMPT ---\n" ++
          pyReplace template.prompts.user "{DIFF_CONTENT}"
            ("\n\n[INFO: " ++ toString (c :: rest).length ++
              " commits were omitted to fit within the token limit.]")) := by
  have hloop : ∀ current_tokens : Nat,
      buildPromptLoop ct max_tokens (c :: rest).length (c :: rest)
          current_tokens [] = some ([], (c :: rest).length) := by
    intro current_tokens
    have hgt : current_tokens + ct chunk > max_tokens := by omega
    simp only [buildPromptLoop, hchunk, hgt, if_pos, List.length_nil,
      Nat.sub_zero]
  refine ⟨hloop, ?_⟩
  simp only [build_prompt, if_neg (List.cons_ne_nil c rest), hloop]
  rw [if_pos (show 0 < (c :: rest).length by simp)]
  rfl

/-- C10: with a template whose optional system field is None and a
non-empty commit list, every payload build_prompt returns opens with
the system header followed by the literal four-character text None,
because the None value is interpolated directly into the f-string. -/
theorem build_prompt_none_system_literal (ct : String → Nat)
    (template : PromptTemplate) (data : List CommitData) (max_tokens : Nat)
    (hsys : template.prompts.system = none) (hdata : data ≠ [])
    (payload : String)
    (hpayload : build_prompt ct template data max_tokens = some payload) :
    ∃ tail, payload = "--- SYSTEM PROMPT ---\nNone\n\n--- USER PROMPT ---\n" ++ tail := by
  simp only [build_prompt, if_neg hdata, hsys] at hpayload
  cases hlv : buildPromptLoop ct max_tokens data.length data
      (ct (pyReplace ("--- SYSTEM PROMPT ---\n" ++ pyFormat none ++
        "\n\n--- USER PROMPT ---\n" ++ template.prompts.user)
        "{DIFF_CONTENT}" "")) [] with
  | none =>
    rw [hlv] at hpayload
    cases hpayload
  | some val =>
    obtain ⟨chunks, omitted⟩ := val
    rw [hlv] at hpayload
    simp only [Option.some.injEq] at hpayload
    refine ⟨pyReplace template.prompts.user "{DIFF_CONTENT}"
      (if omitted > 0 then
        String.intercalate "\n\n" chunks ++
          ("\n\n[INFO: " ++ toString omitted ++
            " commits were omitted to fit within the token limit.]")
      else String.intercalate "\n\n" chunks), ?_⟩
    rw [← hpayload]
    rw [show ("--- SYSTEM PROMPT ---\n" ++ pyFormat none) ++
        "\n\n--- USER PROMPT ---\n" =
      "--- SYSTEM PROMPT ---\nNone\n\n--- USER PROMPT ---\n" from by decide]

/-- C2: evaluation of build_prompt at the single-commit fixture of the
repository test suite (template with system text "System instruction."
and user text "Analyze these changes: \x7bDIFF_CONTENT\x7d", one commit
with short hash abc1234, message "feat: single commit" and diff
"single_diff_content"). The emitted payload carries the per-commit
label "--- Diff for abc1234: feat: single commit ---" even though the
input holds exactly one commit, and it differs from the unlabeled
payload that the spec sentence and the test
test_build_prompt_single_commit describe, where the diff is inserted
as-is. -/
theorem build_prompt_single_commit_emits_label :
    build_prompt String.length demoTemplate [demoSingleCommit] 120000 =
      some ("--- SYSTEM PROMPT ---\nSystem instruction.\n\n--- USER PROMPT ---\nAnalyze these changes: --- Diff for abc1234: feat: single commit ---\nsingle_diff_content") ∧
      build_prompt String.length demoTemplate [demoSingleCommit] 120000 ≠
        some ("--- SYSTEM PROMPT ---\nSystem instruction.\n\n--- USER PROMPT ---\nAnalyze these changes: single_diff_content") := by
  constructor
  · decide
  · decide

/-- C3 counterexample: when both the model-specific tokenizer and the
generic encoding are unavailable, count_tokens raises instead of
returning the claimed character-count heuristic of the length divided
by 4 (which would be 2 for the eight-character text). -/
theorem count_tokens_raises_without_encodings :
    count_tokens none none "abcdefgh" =
        Except.error "tiktoken fallback encoding unavailable" ∧
      count_tokens none none "abcdefgh" ≠
        Except.ok (count_tokens_claimed none none "abcdefgh") := by
  constructor
  · rfl
  · intro h
    rw [show count_tokens none none "abcdefgh" =
      Except.error "tiktoken fallback encoding unavailable" from rfl] at h
    exact Except.noConfusion h

/-- C3 amended: count_tokens tries the model-specific tokenizer first,
falls back to the generic cl100k_base encoding when the first is
unavailable, and, when the generic encoding is also unavailable, lets
the failure propagate; no character-count heuristic exists. -/
theorem count_tokens_fallback_order
    (encodingForModel getEncoding : Option (String → Nat)) (text : String) :
    (∀ encode, encodingForModel = some encode →
      count_tokens encodingForModel getEncoding text = Except.ok (encode text)) ∧
      (∀ encode, encodingForModel = none → getEncoding = some encode →
        count_tokens encodingForModel getEncoding text = Except.ok (encode text)) ∧
      (encodingForModel = none → getEncoding = none →
        count_tokens encodingForModel getEncoding text =
          Except.error "tiktoken fallback encoding unavailable") := by
  refine ⟨?_, ?_, ?_⟩
  · rintro encode rfl
    rfl
  · rintro encode rfl rfl
    rfl
  · rintro rfl rfl
    rfl

/-- Witness for the amended C3 theorem at concrete encoders. -/
theorem count_tokens_fallback_order_witness :
    count_tokens (some String.length) none "ab" = Except.ok ("ab".length) ∧
      count_tokens none (some String.length) "ab" = Except.ok ("ab".length) ∧
      count_tokens none none "ab" =
        Except.error "tiktoken fallback encoding unavailable" :=
  ⟨(count_tokens_fallback_order (some String.length) none "ab").1
      String.length rfl,
    (count_tokens_fallback_order none (some String.length) "ab").2.1
      String.length rfl rfl,
    (count_tokens_fallback_order none none "ab").2.2 rfl rfl⟩

/-- C9: the JSON document written for N records is an array of exactly N
objects whose hash fields equal the input hashes in the same order, and
zero records produce the empty array. -/
theorem save_data_round_trip (data : List CommitData) :
    ∃ es : List Json, save_data_to_file data = Json.arr es ∧
      es.length = data.length ∧
      (∀ i : Nat, (es[i]?).bind (fun j => j.getField "hash") =
        (data[i]?).map (fun c => Json.str c.hash)) ∧
      (data.length = 0 → save_data_to_file data = Json.arr []) := by
  refine ⟨data.map commitDataToJson, rfl, by simp, ?_, ?_⟩
  · intro i
    rw [List.getElem?_map]
    cases hdi : data[i]? with
    | none => rfl
    | some c => rfl
  · intro h
    have hnil : data = [] := List.length_eq_zero.mp h
    subst hnil
    rfl

/-- Witness for C9 at the empty record list. -/
theorem save_data_round_trip_witness :
    save_data_to_file [] = Json.arr [] := by
  obtain ⟨es, -, -, -, h⟩ := save_data_round_trip []
  exact h rfl

/-- Witness for C5 at a concrete one-commit walk with a limit of 2000. -/
theorem fetch_history_data_capped_witness :
    (fetch_history_data [demoResolvedCommit] (some 2000)).1.length ≤ 1000 :=
  (fetch_history_data_capped [demoResolvedCommit] (some 2000)).1

/-- Witness for C6 at an empty staged diff index: staging nothing yields
the empty record list. -/
theorem fetch_staged_data_zero_or_one_witness :
    (fetch_staged_data demoRepo "2024-01-01T00:00:00").length ≤ 1 ∧
      fetch_staged_data demoRepo "2024-01-01T00:00:00" = [] :=
  ⟨(fetch_staged_data_zero_or_one demoRepo "2024-01-01T00:00:00").1, by decide⟩

/-- Witness for C1 at a concrete root commit holding one added file. -/
theorem extract_diff_root_commit_all_additions_witness :
    demoRootCommit.parents = [] ∧
      extract_diff_commit demoRootCommit =
        processDiffIndex demoRootCommit.emptyTreeDiffIndex ∧
      diffItemLabel demoNewItem ≠ "--- DELETED FILE: " ++ "hello.py ---\n" :=
  ⟨rfl,
    (extract_diff_root_commit_all_additions demoRootCommit rfl (by decide)).1,
    ((extract_diff_root_commit_all_additions demoRootCommit rfl
        (by decide)).2 demoNewItem (by decide)).2.1 "hello.py ---\n"⟩

/-- Witness for C8 at a three-hash list whose middle hash fails to
resolve. -/
theorem fetch_by_hashes_skips_failures_witness :
    (demoHashes.filter (fun x => (demoResolve x).isNone)).length = 1 ∧
      (fetch_history_data_by_hashes demoResolve demoHashes).length =
        demoHashes.length - 1 :=
  ⟨by decide,
    (fetch_by_hashes_skips_failures demoResolve demoHashes (by decide)).1⟩

/-- Witness for C4 at the fixture commit and a budget of three tokens. -/
theorem build_prompt_budget_below_first_witness :
    commitChunk demoSingleCommit = some demoChunk ∧
      (3 : Nat) < String.length demoChunk ∧
      build_prompt String.length demoTemplate [demoSingleCommit] 3 =
        some ("--- SYSTEM PROMPT ---\n" ++ pyFormat demoTemplate.prompts.system ++
          "\n\n--- USER PROMPT ---\n" ++
          pyReplace demoTemplate.prompts.user "{DIFF_CONTENT}"
            ("\n\n[INFO: " ++ toString ([demoSingleCommit].length) ++
              " commits were omitted to fit within the token limit.]")) :=
  ⟨by decide, by decide,
    (build_prompt_budget_below_first String.length demoTemplate
      demoSingleCommit [] 3 demoChunk (by decide) (by decide)).2⟩

/-- Witness for C10 at the fixture commit and a template without a
system prompt. -/
theorem build_prompt_none_system_literal_witness :
    ∃ tail,
      "--- SYSTEM PROMPT ---\nNone\n\n--- USER PROMPT ---\nAnalyze these changes: --- Diff for abc1234: feat: single commit ---\nsingle_diff_content" =
        "--- SYSTEM PROMPT ---\nNone\n\n--- USER PROMPT ---\n" ++ tail :=
  build_prompt_none_system_literal String.length demoTemplateNoSystem
    [demoSingleCommit] 120000 rfl (by decide) _ (by decide)

end GitToJson
